import Mathlib

/-!
Verification of the Halloween animatronic-eye tracker (Tolian500/halloween).

This file gives a shallow embedding, in Lean 4, of the parts of the Python
source that the specification's claims are about:

* the per-tick position smoother `EyeTracker.smooth_eye_movement` (src/main.py),
* the perception state machine around `update_face_following`,
  `update_eye_position`, `check_idle_animation_trigger`, `start_idle_mode`,
  `exit_idle_mode` and `update_idle_animation` (src/main.py),
* the RGB565 pixel encoder and the bounded render cache shared by
  `create_eye_image` in src/eye_template.py and src/display_settings.py,
* the per-pixel raster semantics of both `create_eye_image` renderers
  (mask membership tests, eyelid clipping band, position clamping),
* Python call/attribute semantics needed for the two defect claims
  (argument-count mismatch and missing `IdleAnimations` methods).

Real numbers of the Python source (floats) are modelled as exact rationals;
`int(...)` truncation is modelled by truncation toward zero, and Python's
floor division `//` by `Int.fdiv`.  Display constants: WIDTH = HEIGHT = 240.
-/

/-! ## Position smoother (src/main.py, `smooth_eye_movement`, lines 586-607)

The code performs, per axis and per eye,
`new = current + (target - current) * self.eye_movement_speed`. -/

/-- One smoothing step for a single axis:
`current + (target - current) * speed`, exactly as in src/main.py:592. -/
def smoothStep (speed current target : ℚ) : ℚ :=
  current + (target - current) * speed

/-- Iterated application of `smoothStep` with a fixed target,
modelling repeated render ticks. -/
def smoothIter (speed target : ℚ) : ℕ → ℚ → ℚ
  | 0, c => c
  | n + 1, c => smoothStep speed (smoothIter speed target n c) target

/-- State touched by `EyeTracker.smooth_eye_movement`: current and target
positions of both eyes plus the smoothing factor (`eye_movement_speed`). -/
structure EyeSmooth where
  current_left_eye : ℚ × ℚ
  current_right_eye : ℚ × ℚ
  current_eye_position : ℚ × ℚ
  target_left_eye : ℚ × ℚ
  target_right_eye : ℚ × ℚ
  eye_movement_speed : ℚ

/-- Literal translation of `EyeTracker.smooth_eye_movement`
(src/main.py lines 586-607): both axes of both eyes are interpolated by
`current + (target - current) * eye_movement_speed`, then
`current_eye_position` is kept in sync with the left eye. -/
def smooth_eye_movement (s : EyeSmooth) : EyeSmooth :=
  let new_left_x := s.current_left_eye.1 +
    (s.target_left_eye.1 - s.current_left_eye.1) * s.eye_movement_speed
  let new_left_y := s.current_left_eye.2 +
    (s.target_left_eye.2 - s.current_left_eye.2) * s.eye_movement_speed
  let new_right_x := s.current_right_eye.1 +
    (s.target_right_eye.1 - s.current_right_eye.1) * s.eye_movement_speed
  let new_right_y := s.current_right_eye.2 +
    (s.target_right_eye.2 - s.current_right_eye.2) * s.eye_movement_speed
  { s with
    current_left_eye := (new_left_x, new_left_y)
    current_right_eye := (new_right_x, new_right_y)
    current_eye_position := (new_left_x, new_left_y) }

/-! ## Perception state machine (src/main.py)

State fields of `EyeTracker` relevant to mode transitions and eye-position
targeting.  Times are rationals (seconds); the random delays that
`start_idle_mode` resamples with `np.random.uniform` are supplied as oracle
inputs `nTrig`/`nResume`.  `has_idle_animations` models
`self.idle_animations is not None`. -/

/-- Display width in pixels (display_settings.py: WIDTH = 240). -/
def WIDTH : ℕ := 240

/-- Display height in pixels (display_settings.py: HEIGHT = 240). -/
def HEIGHT : ℕ := 240

/-- Display center `(WIDTH//2, HEIGHT//2)` used as the reset position. -/
def displayCenter : ℚ × ℚ := ((WIDTH : ℚ) / 2, (HEIGHT : ℚ) / 2)

/-- A detector bounding box `(x, y, w, h)` as produced by
`cv2.boundingRect` / `detectMultiScale`. -/
structure Box where
  x : ℤ
  y : ℤ
  w : ℤ
  h : ℤ
deriving DecidableEq

/-- Subset of the `EyeTracker` mutable state that the mode machine and the
position adapters read and write. -/
structure Tracker where
  face_following_mode : Bool
  idle_mode : Bool
  current_face_center : Option (ℤ × ℤ)
  last_motion_time : ℚ
  last_face_following_time : ℚ
  face_following_timeout : ℚ
  motion_timeout : ℚ
  idle_trigger_delay : ℚ
  idle_resume_delay : ℚ
  idle_start_time : Option ℚ
  idle_animation_started : Bool
  has_idle_animations : Bool
  motion_history : List (ℚ × ℚ)
  motion_history_size : ℕ
  target_eye_position : ℚ × ℚ
  target_left_eye : ℚ × ℚ
  target_right_eye : ℚ × ℚ
  camera_width : ℤ
  camera_height : ℤ
deriving DecidableEq

/-- Python `max(boxes, key=lambda f: f[2]*f[3])`: the first box of maximal
area (later boxes replace the current best only when strictly larger). -/
def largestBox (b : Box) (bs : List Box) : Box :=
  bs.foldl (fun best f => if best.w * best.h < f.w * f.h then f else best) b

/-- Center of a box: `(x + w//2, y + h//2)` with Python floor division. -/
def boxCenter (b : Box) : ℤ × ℤ :=
  (b.x + b.w.fdiv 2, b.y + b.h.fdiv 2)

/-- Sensor-to-display mapping used by the motion branch of
`update_eye_position` (src/main.py lines 546-555): normalize the motion
center to [-1,1] about the camera-frame center, then
`eye_x = WIDTH//2 - norm_x * (WIDTH//2 - 20)` (inverted X) and
`eye_y = HEIGHT//2 + norm_y * (HEIGHT//2 - 20)`. -/
def motionEyePos (cw ch : ℤ) (b : Box) : ℚ × ℚ :=
  let c := boxCenter b
  let hw : ℤ := cw.fdiv 2
  let hh : ℤ := ch.fdiv 2
  let norm_x : ℚ := ((c.1 : ℚ) - (hw : ℚ)) / (hw : ℚ)
  let norm_y : ℚ := ((c.2 : ℚ) - (hh : ℚ)) / (hh : ℚ)
  ((WIDTH : ℚ) / 2 - norm_x * ((WIDTH : ℚ) / 2 - 20),
   (HEIGHT : ℚ) / 2 + norm_y * ((HEIGHT : ℚ) / 2 - 20))

/-- `EyeTracker.get_eye_position_from_face` (src/main.py lines 365-380):
same mapping as the motion branch, applied to a face center; `None` maps to
the display center. -/
def get_eye_position_from_face (cw ch : ℤ) (fc : Option (ℤ × ℤ)) : ℚ × ℚ :=
  match fc with
  | none => displayCenter
  | some (fx, fy) =>
    let hw : ℤ := cw.fdiv 2
    let hh : ℤ := ch.fdiv 2
    let norm_x : ℚ := ((fx : ℚ) - (hw : ℚ)) / (hw : ℚ)
    let norm_y : ℚ := ((fy : ℚ) - (hh : ℚ)) / (hh : ℚ)
    ((WIDTH : ℚ) / 2 - norm_x * ((WIDTH : ℚ) / 2 - 20),
     (HEIGHT : ℚ) / 2 + norm_y * ((HEIGHT : ℚ) / 2 - 20))

/-- Append a position to `motion_history` and drop the oldest entry when the
history exceeds `motion_history_size` (src/main.py lines 557-560). -/
def pushHistory (h : List (ℚ × ℚ)) (sz : ℕ) (p : ℚ × ℚ) : List (ℚ × ℚ) :=
  let h2 := h ++ [p]
  if sz < h2.length then h2.drop 1 else h2

/-- Arithmetic mean of the history positions (src/main.py lines 563-566). -/
def avgHistory (h : List (ℚ × ℚ)) : ℚ × ℚ :=
  ((h.map Prod.fst).sum / (h.length : ℚ), (h.map Prod.snd).sum / (h.length : ℚ))

/-- Shared tail of the face-following and motion branches of
`update_eye_position`: push the new point into the history, then set all
three targets to the history average when at least two entries exist, else
to the raw point (src/main.py lines 557-575). -/
def setTargetsFromHistory (s : Tracker) (p : ℚ × ℚ) : Tracker :=
  let h := pushHistory s.motion_history s.motion_history_size p
  if 2 ≤ h.length then
    let a := avgHistory h
    { s with motion_history := h, target_eye_position := a,
             target_left_eye := a, target_right_eye := a }
  else
    { s with motion_history := h, target_eye_position := p,
             target_left_eye := p, target_right_eye := p }

/-- `EyeTracker.exit_idle_mode` (src/main.py lines 636-649): leave idle
mode, reset all eye targets to the display center and clear the motion
history. -/
def exit_idle_mode (s : Tracker) : Tracker :=
  { s with idle_mode := false, idle_start_time := none,
           idle_animation_started := false,
           target_eye_position := displayCenter,
           target_left_eye := displayCenter,
           target_right_eye := displayCenter,
           motion_history := [] }

/-- `EyeTracker.start_idle_mode` (src/main.py lines 621-634): no-op when
`idle_animations is None`; otherwise enter idle mode and resample the two
random delays (`nTrig`, `nResume` stand for the `np.random.uniform` draws). -/
def start_idle_mode (t nTrig nResume : ℚ) (s : Tracker) : Tracker :=
  if s.has_idle_animations then
    { s with idle_mode := true, idle_start_time := some t,
             idle_animation_started := false,
             idle_trigger_delay := nTrig, idle_resume_delay := nResume }
  else s

/-- `EyeTracker.check_idle_animation_trigger` (src/main.py lines 609-619):
start idle mode when not already idle and no motion has been seen for at
least `idle_trigger_delay`. -/
def check_idle_animation_trigger (t nTrig nResume : ℚ) (s : Tracker) : Tracker :=
  if s.idle_mode then s
  else if s.idle_trigger_delay ≤ t - s.last_motion_time then
    start_idle_mode t nTrig nResume s
  else s

/-- `EyeTracker.update_face_following` (src/main.py lines 341-363): on a
non-empty face list, remember the largest face's center; enter
face-following mode only when not already in it and the last motion event is
strictly more than 1 second (the settle window) in the past; refresh the
face-following hold timer whenever in the mode. -/
def update_face_following (faces : List Box) (t : ℚ) (s : Tracker) : Tracker :=
  match faces with
  | [] => s
  | f :: fs =>
    let s1 : Tracker := { s with current_face_center := some (boxCenter (largestBox f fs)) }
    let s2 : Tracker :=
      if s1.face_following_mode = false ∧ 1 < t - s1.last_motion_time then
        { s1 with face_following_mode := true, last_face_following_time := t }
      else s1
    if s2.face_following_mode then { s2 with last_face_following_time := t } else s2

/-- `EyeTracker.update_eye_position` (src/main.py lines 484-584): motion
events interrupt face-following and idle mode, the face-follow hold timer is
enforced, the idle trigger is checked, and then the active mode determines
the new eye targets. -/
def update_eye_position (motion_boxes : List Box) (t nTrig nResume : ℚ)
    (s : Tracker) : Tracker :=
  let s1 :=
    match motion_boxes with
    | [] => s
    | _ :: _ =>
      let sa := { s with last_motion_time := t }
      let sb :=
        if sa.face_following_mode then
          { sa with face_following_mode := false, current_face_center := none }
        else sa
      if sb.idle_mode then exit_idle_mode sb else sb
  let s2 :=
    if s1.face_following_mode = true ∧
        s1.face_following_timeout < t - s1.last_face_following_time then
      { s1 with face_following_mode := false, current_face_center := none }
    else s1
  let s3 := check_idle_animation_trigger t nTrig nResume s2
  if s3.idle_mode then s3
  else if s3.face_following_mode = true ∧ s3.current_face_center.isSome then
    setTargetsFromHistory s3
      (get_eye_position_from_face s3.camera_width s3.camera_height s3.current_face_center)
  else
    match motion_boxes with
    | [] =>
      if s3.motion_timeout < t - s3.last_motion_time then
        { s3 with target_eye_position := displayCenter,
                  target_left_eye := displayCenter,
                  target_right_eye := displayCenter,
                  motion_history := [] }
      else s3
    | m :: ms =>
      let s4 := { s3 with last_motion_time := t }
      setTargetsFromHistory s4
        (motionEyePos s4.camera_width s4.camera_height (largestBox m ms))

/-- A baseline tracker state matching `EyeTracker.__init__` (src/main.py):
motion-tracking mode, centered targets, configured timeouts. -/
def sampleTracker : Tracker where
  face_following_mode := false
  idle_mode := false
  current_face_center := none
  last_motion_time := 0
  last_face_following_time := 0
  face_following_timeout := 7
  motion_timeout := 2
  idle_trigger_delay := 10
  idle_resume_delay := 20
  idle_start_time := none
  idle_animation_started := false
  has_idle_animations := true
  motion_history := []
  motion_history_size := 5
  target_eye_position := displayCenter
  target_left_eye := displayCenter
  target_right_eye := displayCenter
  camera_width := 800
  camera_height := 600

/-- A tracker state currently in idle mode. -/
def sampleIdleTracker : Tracker :=
  { sampleTracker with idle_mode := true, idle_start_time := some 0 }

/-- The C7 scenario state: a 100×100 sensor frame, motion-tracking mode. -/
def scenarioTracker : Tracker :=
  { sampleTracker with camera_width := 100, camera_height := 100 }

/-- The C7 scenario motion bounding box `(10, 10, 20, 20)`. -/
def scenarioBox : Box := ⟨10, 10, 20, 20⟩

/-- A generic motion box used in witnesses. -/
def sampleBox : Box := ⟨0, 0, 10, 10⟩

/-! ## Render cache (src/eye_template.py lines 104-106 and 263-269;
src/display_settings.py lines 200-202 and 272-278)

A Python dict preserves insertion order, so it is modelled as an
insertion-ordered association list (head = oldest entry).  `create_eye_image`
returns the cached bytes on a key hit without touching the dict; on a miss it
evicts `next(iter(cache))` — the oldest entry — once `len(cache) >= cache_size`
and then appends the new entry. -/

/-- Python `cache_key in eye_cache`. -/
def cacheHasKey {K V : Type} [DecidableEq K] (c : List (K × V)) (k : K) : Bool :=
  c.any (fun e => decide (e.1 = k))

/-- Cache update performed by one `create_eye_image` call: return unchanged
on a hit; otherwise pop the oldest entry when at capacity, then append. -/
def cacheInsert {K V : Type} [DecidableEq K] (cap : ℕ) (c : List (K × V))
    (k : K) (v : V) : List (K × V) :=
  if cacheHasKey c k then c
  else (if cap ≤ c.length then c.drop 1 else c) ++ [(k, v)]

/-- A whole sequence of `create_eye_image` cache updates. -/
def cacheRun {K V : Type} [DecidableEq K] (cap : ℕ) (init : List (K × V))
    (ops : List (K × V)) : List (K × V) :=
  ops.foldl (fun c kv => cacheInsert cap c kv.1 kv.2) init

/-! ## RGB565 pixel encoder (src/eye_template.py lines 254-261;
src/display_settings.py lines 263-270)

`r >> 3`, `g >> 2`, `b >> 3` packed as `(r5 << 11) | (g6 << 5) | b5` in
uint16 arithmetic, serialized big-endian (`astype('>u2').tobytes()`). -/

/-- One RGB888 pixel (uint8 channels). -/
structure RGB where
  r : ℕ
  g : ℕ
  b : ℕ
deriving DecidableEq

/-- RGB565 packing of one pixel, exactly the per-channel shifts of the
source. -/
def rgb565 (p : RGB) : ℕ :=
  ((p.r >>> 3) <<< 11) ||| ((p.g >>> 2) <<< 5) ||| (p.b >>> 3)

/-- Big-endian serialization of one 16-bit value (`astype('>u2')`). -/
def toBE16 (v : ℕ) : List ℕ :=
  [v / 256 % 256, v % 256]

/-- Encode a row-major RGB888 pixel list to the RGB565 wire byte sequence. -/
def encodeRGB565 : List RGB → List ℕ
  | [] => []
  | p :: ps => toBE16 (rgb565 p) ++ encodeRGB565 ps

/-- Decoder for the red field of an RGB565 word (top five bits). -/
def decodeR565 (v : ℕ) : ℕ := v >>> 11

/-- Decoder for the green field of an RGB565 word (middle six bits). -/
def decodeG565 (v : ℕ) : ℕ := (v >>> 5) &&& 63

/-- Decoder for the blue field of an RGB565 word (low five bits). -/
def decodeB565 (v : ℕ) : ℕ := v &&& 31

/-! ## Raster eye renderers

Per-pixel semantics of the two `create_eye_image` implementations.  The
numpy code builds boolean masks over `np.ogrid[:240, :240]` and writes a
color wherever a mask holds, later writes overwriting earlier ones; a pixel
covered by no mask keeps the cleared background (0,0,0).  We model the color
a pixel ends up with as a function of the pixel coordinates.  The iris
gradient of eye_template.py needs one square root per pixel
(`np.sqrt(dist_squared)`); the square-root function is taken as a parameter
`sq` so the model stays executable — the claims below either hold for every
`sq` or are evaluated where the argument is a perfect square. -/

/-- Python `int(...)`: truncation toward zero. -/
def pyInt (q : ℚ) : ℤ :=
  if q < 0 then ⌈q⌉ else ⌊q⌋

/-- Truncation of a float channel value by `.astype(np.uint8)` (values are
within [0,255] wherever the source applies it, so no wraparound). -/
def truncChan (q : ℚ) : ℚ :=
  ((pyInt q : ℤ) : ℚ)

/-- `np.clip(v, 0, 255)`. -/
def clip255 (q : ℚ) : ℚ :=
  min 255 (max 0 q)

/-- Clamp of the eye center so the iris stays inside the render square:
`int(max(iris_radius, min(render_size - iris_radius, v)))`
(src/eye_template.py lines 122-123; src/display_settings.py lines 219-220). -/
def clampCoord (render_size r v : ℤ) : ℤ :=
  max r (min (render_size - r) v)

/-- `Nat.sqrt` cast to ℚ: an executable square root, exact on perfect
squares (where the counterexample below evaluates the gradient). -/
def natSqrtQ (n : ℕ) : ℚ :=
  (Nat.sqrt n : ℚ)

namespace EyeTemplate

/-- EYE_CONFIG glow_size (src/eye_template.py line 33). -/
def glow_size : ℤ := 15

/-- EYE_CONFIG glow_intensity = 0.3. -/
def glow_intensity : ℚ := 3/10

/-- EYE_CONFIG edge_highlight width = 2. -/
def highlight_width : ℚ := 2

/-- EYE_CONFIG edge_highlight brightness = 1.8. -/
def highlight_brightness : ℚ := 9/5

/-- EYE_CONFIG edge_highlight alpha = 0.5. -/
def highlight_alpha : ℚ := 1/2

/-- EYE_CONFIG iris_gradient gradient_size = 0.6. -/
def gradient_size : ℚ := 3/5

/-- EYE_CONFIG iris_gradient center_brightness = 1.4. -/
def center_brightness : ℚ := 7/5

/-- EYE_CONFIG iris_gradient edge_darkness = 0.5. -/
def edge_darkness : ℚ := 1/2

/-- Pupil width/height derivation of `create_eye_image`
(src/eye_template.py lines 86-92): choose the tracked or normal pupil
config, apply the size ratio, the face-size factor and the width/height
ratios, truncating with `int(...)` at each step. -/
def pupilDims (iris_radius : ℤ) (face_tracked : Bool) (pupil_size_factor : ℚ) :
    ℤ × ℤ :=
  let sizeRatio : ℚ := if face_tracked then 3/5 else 4/5
  let widthRatio : ℚ := if face_tracked then 1 else 1/5
  let heightRatio : ℚ := 1
  let base := pyInt ((iris_radius : ℚ) * sizeRatio)
  let pr := pyInt ((base : ℚ) * pupil_size_factor)
  (pyInt ((pr : ℚ) * widthRatio), pyInt ((pr : ℚ) * heightRatio))

/-- Arguments of one `create_eye_image` rendering (after the cache miss):
integer eye position, blink state, RGB color, iris radius and the derived
pupil half-axes. -/
structure RenderArgs where
  eye_x : ℤ
  eye_y : ℤ
  blink_state : ℚ
  eye_color : ℚ × ℚ × ℚ
  iris_radius : ℤ
  pupil_width : ℤ
  pupil_height : ℤ
deriving DecidableEq

/-- Clamped horizontal eye center (src/eye_template.py line 122). -/
def renderX (a : RenderArgs) : ℤ :=
  clampCoord 240 a.iris_radius a.eye_x

/-- Clamped vertical eye center (src/eye_template.py line 123). -/
def renderY (a : RenderArgs) : ℤ :=
  clampCoord 240 a.iris_radius a.eye_y

/-- Squared distance of a pixel from the eye center. -/
def d2 (a : RenderArgs) (px py : ℤ) : ℤ :=
  (px - renderX a) ^ 2 + (py - renderY a) ^ 2

/-- `eyelid_top = render_y - iris_radius + iris_radius * (1 - blink_state)`
(src/eye_template.py line 130). -/
def eyelidTop (a : RenderArgs) : ℚ :=
  (renderY a : ℚ) - (a.iris_radius : ℚ) +
    (a.iris_radius : ℚ) * (1 - a.blink_state)

/-- `eyelid_bottom = render_y + iris_radius - iris_radius * (1 - blink_state)`
(src/eye_template.py line 131). -/
def eyelidBottom (a : RenderArgs) : ℚ :=
  (renderY a : ℚ) + (a.iris_radius : ℚ) -
    (a.iris_radius : ℚ) * (1 - a.blink_state)

/-- Membership of a pixel row in the eyelid band
(`(y >= eyelid_top) & (y <= eyelid_bottom)`). -/
def inBand (a : RenderArgs) (py : ℤ) : Prop :=
  eyelidTop a ≤ (py : ℚ) ∧ (py : ℚ) ≤ eyelidBottom a

instance (a : RenderArgs) (py : ℤ) : Decidable (inBand a py) := by
  unfold inBand; infer_instance

/-- A pixel row survives eyelid clipping: in the `blink_state < 1` branch it
must lie in the band; the fully-open branch (lines 192-252) has no band
condition. -/
def visible (a : RenderArgs) (py : ℤ) : Prop :=
  1 ≤ a.blink_state ∨ inBand a py

instance (a : RenderArgs) (py : ℤ) : Decidable (visible a py) := by
  unfold visible; infer_instance

/-- Glow mask: disk of radius `iris_radius + glow_size`, eyelid-clipped
(src/eye_template.py lines 134-135 / 195-196). -/
def maskGlow (a : RenderArgs) (px py : ℤ) : Prop :=
  d2 a px py ≤ (a.iris_radius + glow_size) ^ 2 ∧ visible a py

instance (a : RenderArgs) (px py : ℤ) : Decidable (maskGlow a px py) := by
  unfold maskGlow; infer_instance

/-- Highlight ring mask between `iris_radius ± highlight_width/2`
(src/eye_template.py lines 146-149 / 207-210). -/
def maskHighlight (a : RenderArgs) (px py : ℤ) : Prop :=
  (((a.iris_radius : ℚ) - highlight_width / 2) ^ 2 ≤ (d2 a px py : ℚ) ∧
   (d2 a px py : ℚ) ≤ ((a.iris_radius : ℚ) + highlight_width / 2) ^ 2) ∧
  visible a py

instance (a : RenderArgs) (px py : ℤ) : Decidable (maskHighlight a px py) := by
  unfold maskHighlight; infer_instance

/-- Iris mask: disk of radius `iris_radius`, eyelid-clipped
(src/eye_template.py line 161 / 222-223). -/
def maskIris (a : RenderArgs) (px py : ℤ) : Prop :=
  d2 a px py ≤ a.iris_radius ^ 2 ∧ visible a py

instance (a : RenderArgs) (px py : ℤ) : Decidable (maskIris a px py) := by
  unfold maskIris; infer_instance

/-- Elliptical pupil mask (src/eye_template.py line 190 / 251). -/
def maskPupil (a : RenderArgs) (px py : ℤ) : Prop :=
  ((px - renderX a : ℤ) : ℚ) ^ 2 / (a.pupil_width : ℚ) ^ 2 +
    ((py - renderY a : ℤ) : ℚ) ^ 2 / (a.pupil_height : ℚ) ^ 2 ≤ 1 ∧
  visible a py

instance (a : RenderArgs) (px py : ℤ) : Decidable (maskPupil a px py) := by
  unfold maskPupil; infer_instance

/-- Iris radial-gradient multiplier as a function of the normalized distance
(src/eye_template.py lines 173-182). -/
def gradientMult (dn : ℚ) : ℚ :=
  if dn ≤ gradient_size then center_brightness
  else center_brightness +
    (edge_darkness - center_brightness) * ((dn - gradient_size) / (1 - gradient_size))

/-- Glow color channel: `int(c * glow_intensity)`. -/
def glowChan (c : ℚ) : ℚ :=
  truncChan (c * glow_intensity)

/-- Highlight color channel: `np.clip(c * brightness, 0, 255).astype(uint8)`. -/
def highlightChan (c : ℚ) : ℚ :=
  truncChan (clip255 (c * highlight_brightness))

/-- Alpha blend of the highlight over the existing pixel, truncated by
`.astype(np.uint8)` (src/eye_template.py lines 155-158). -/
def blendChan (prev hc : ℚ) : ℚ :=
  truncChan ((1 - highlight_alpha) * prev + highlight_alpha * hc)

/-- Gradient iris channel: `np.clip(c * mult, 0, 255).astype(uint8)`. -/
def gradChan (c dn : ℚ) : ℚ :=
  truncChan (clip255 (c * gradientMult dn))

/-- Final color of one pixel after the draw sequence background → glow →
highlight → iris gradient → pupil, each write restricted to its mask
(src/eye_template.py lines 128-252).  `sq` stands for `np.sqrt` on the
squared pixel distance. -/
def pixel (sq : ℕ → ℚ) (a : RenderArgs) (px py : ℤ) : ℚ × ℚ × ℚ :=
  let c0 : ℚ × ℚ × ℚ := (0, 0, 0)
  let c1 := if maskGlow a px py then
      (glowChan a.eye_color.1, glowChan a.eye_color.2.1, glowChan a.eye_color.2.2)
    else c0
  let c2 := if maskHighlight a px py then
      (blendChan c1.1 (highlightChan a.eye_color.1),
       blendChan c1.2.1 (highlightChan a.eye_color.2.1),
       blendChan c1.2.2 (highlightChan a.eye_color.2.2))
    else c1
  let c3 := if maskIris a px py then
      (gradChan a.eye_color.1 (sq (d2 a px py).toNat / (a.iris_radius : ℚ)),
       gradChan a.eye_color.2.1 (sq (d2 a px py).toNat / (a.iris_radius : ℚ)),
       gradChan a.eye_color.2.2 (sq (d2 a px py).toNat / (a.iris_radius : ℚ)))
    else c2
  if maskPupil a px py then (0, 0, 0) else c3

end EyeTemplate

namespace DisplaySettings

/-- Final color of one pixel for `display_settings.create_eye_image`
(src/display_settings.py lines 204-261): fixed iris radius 50 and pupil
radius 25; in the blinking branch the eyelid band is centered on the display
center (`render_size//2`) and nothing at all is drawn unless
`eyelid_bottom > eyelid_top`; draw order is glow → flat iris color → white
pupil. -/
def pixel (eye_x eye_y : ℤ) (blink : ℚ) (col : ℚ × ℚ × ℚ) (px py : ℤ) :
    ℚ × ℚ × ℚ :=
  let rx := clampCoord 240 50 eye_x
  let ry := clampCoord 240 50 eye_y
  let dd := (px - rx) ^ 2 + (py - ry) ^ 2
  let glow : ℚ × ℚ × ℚ :=
    (truncChan (col.1 * (3/10)), truncChan (col.2.1 * (3/10)),
     truncChan (col.2.2 * (3/10)))
  if blink < 1 then
    let top := pyInt (120 - 120 * blink)
    let bot := pyInt (120 + 120 * blink)
    if top < bot then
      let c1 := if dd ≤ (50 + 15) ^ 2 ∧ top ≤ py ∧ py ≤ bot then glow else (0, 0, 0)
      let c2 := if dd ≤ 50 ^ 2 ∧ top ≤ py ∧ py ≤ bot then col else c1
      if dd ≤ 25 ^ 2 ∧ top ≤ py ∧ py ≤ bot then (255, 255, 255) else c2
    else (0, 0, 0)
  else
    let c1 := if dd ≤ (50 + 15) ^ 2 then glow else (0, 0, 0)
    let c2 := if dd ≤ 50 ^ 2 then col else c1
    if dd ≤ 25 ^ 2 then (255, 255, 255) else c2

end DisplaySettings

/-- Arguments of the C6 counterexample: eye centered at (120,120), blink
fully closed (0), yellow color, iris radius 40 and the pupil half-axes
`pupilDims 40 false 1 = (6, 32)`. -/
def blinkArgs : EyeTemplate.RenderArgs :=
  ⟨120, 120, 0, (255, 255, 0), 40, 6, 32⟩

/-- Arguments with a half-closed blink, used to witness the eyelid
clipping. -/
def halfBlinkArgs : EyeTemplate.RenderArgs :=
  ⟨120, 120, 1/2, (255, 255, 0), 40, 6, 32⟩

/-- Arguments with the eye requested at the left edge (x = 0), iris radius
50 (the eye_template default), fully open. -/
def edgeArgs : EyeTemplate.RenderArgs :=
  ⟨0, 120, 1, (255, 255, 0), 50, 8, 40⟩

/-! ## Python call and attribute semantics for the defect claims

C8 needs Python attribute lookup on `IdleAnimations` (a call to a method the
class does not define raises `AttributeError`), and C10 needs Python's
positional-argument arity check (passing more positional arguments than the
callee has parameters raises `TypeError`). -/

/-- Python runtime errors relevant here. -/
inductive PyErr where
  | attributeError (attr : String)
  | typeError
deriving DecidableEq

/-- The method names the class `IdleAnimations` actually defines
(src/idle_animations.py lines 13-556). -/
def idleAnimationsMethods : List String :=
  ["__init__", "get_animation_name", "smooth_eye_movement",
   "animation_1_rolling_orbit", "animation_2_horizontal_scan",
   "animation_3_vertical_scan_random_x", "animation_4_blinking",
   "animation_5_hate_eyes", "animation_6_sleeping_eyes",
   "animation_7_arch_movement", "should_blink", "get_blink_state",
   "start_blink", "render_eyes", "run_animation_test"]

/-- Python attribute lookup on an `IdleAnimations` instance (methods only;
the instance fields are not called in `update_idle_animation`). -/
def idleAnimationsHasAttr (m : String) : Bool :=
  idleAnimationsMethods.contains m

/-- `EyeTracker.update_idle_animation` (src/main.py lines 651-688) with
Python attribute lookup made explicit: a no-op unless in idle mode with an
animation object; exits idle after `idle_resume_delay`; otherwise calls
`start_random_animation()` on the first tick and `update()` /
`get_current_positions()` on every tick.  The `.ok` continuations after a
successful lookup are unreachable for the real class and carry no target
update, because the looked-up methods do not exist (the theorem below proves
the error is always reached). -/
def update_idle_animation (t : ℚ) (s : Tracker) : Except PyErr Tracker :=
  if s.idle_mode = false ∨ s.has_idle_animations = false then .ok s
  else
    match s.idle_start_time with
    | none => .error .typeError
    | some t0 =>
      if s.idle_resume_delay ≤ t - t0 then .ok (exit_idle_mode s)
      else
        let started : Except PyErr Tracker :=
          if s.idle_animation_started = false then
            if idleAnimationsHasAttr "start_random_animation" then
              .ok { s with idle_animation_started := true }
            else .error (.attributeError "start_random_animation")
          else .ok s
        match started with
        | .error e => .error e
        | .ok s1 =>
          if idleAnimationsHasAttr "update" then
            if idleAnimationsHasAttr "get_current_positions" then .ok s1
            else .error (.attributeError "get_current_positions")
          else .error (.attributeError "update")

/-- Python positional-call arity check: `numArgs` positional arguments
against a function with `numParams` parameters, the last `numDefaults` of
which have defaults. -/
def pyCallPositional (numParams numDefaults numArgs : ℕ) : Except PyErr Unit :=
  if numParams < numArgs ∨ numArgs + numDefaults < numParams then
    .error .typeError
  else .ok ()

/-- Parameter count of `display_settings.create_eye_image`
(src/display_settings.py line 187: `eye_x, eye_y, blink_state=1.0,
eye_cache=None, cache_size=50, eye_color=None`). -/
def displaySettingsCreateEyeImageParams : ℕ := 6

/-- Default count of `display_settings.create_eye_image` (four of the six
parameters have defaults). -/
def displaySettingsCreateEyeImageDefaults : ℕ := 4

/-- The positional arguments `EyeTracker.create_eye_image` forwards to the
imported `create_eye_image` (src/main.py line 281). -/
def forwardedArgs : List String :=
  ["eye_x", "eye_y", "blink_state", "eye_cache", "self.cache_size",
   "self.current_eye_color", "current_eye_size"]

/-- The call `EyeTracker.create_eye_image` performs for given Python-level
inputs: the inputs do not change the positional argument count, so only the
arity check matters. -/
def eyeTrackerCreateEyeImage (_eye_x _eye_y : ℤ) (_blink : ℚ) :
    Except PyErr Unit :=
  pyCallPositional displaySettingsCreateEyeImageParams
    displaySettingsCreateEyeImageDefaults forwardedArgs.length

/-- One render-loop iteration body outcome under the `try`/`except` handler
of `display_thread_func` (src/main.py lines 805-859): an exception yields no
frame but the loop keeps running. -/
def displayThreadIteration {α : Type} (render : Except PyErr α) :
    Option α × Bool :=
  match render with
  | .ok frame => (some frame, true)
  | .error _ => (none, true)

theorem smoothStep_sub (s c t : ℚ) :
    smoothStep s c t - t = (c - t) * (1 - s) := by
  unfold smoothStep; ring

theorem smoothIter_sub (s t : ℚ) (n : ℕ) (c : ℚ) :
    smoothIter s t n c - t = (c - t) * (1 - s) ^ n := by
  induction n with
  | zero => simp [smoothIter]
  | succ n ih =>
      rw [smoothIter, smoothStep_sub, ih, pow_succ]
      ring

/-- C1: one tick of the position smoother computes
`current + (target - current) * smoothingFactor` per axis per eye; for a
smoothing factor in (0, 1], each tick strictly reduces `|current - target|`
when they differ, never overshoots (the offset keeps its sign), the iterates
converge below any positive epsilon, and a converged position is a fixed
point. -/
theorem C1_smoother_convergence (s c t ε : ℚ)
    (hs0 : 0 < s) (hs1 : s ≤ 1) (hε : 0 < ε) :
    smoothStep s c t = c + (t - c) * s ∧
    (c ≠ t → |smoothStep s c t - t| < |c - t|) ∧
    0 ≤ (smoothStep s c t - t) * (c - t) ∧
    (∃ N : ℕ, ∀ n, N ≤ n → |smoothIter s t n c - t| < ε) ∧
    smoothStep s t t = t ∧
    (∀ st : EyeSmooth,
      (smooth_eye_movement st).current_left_eye =
        (smoothStep st.eye_movement_speed st.current_left_eye.1 st.target_left_eye.1,
         smoothStep st.eye_movement_speed st.current_left_eye.2 st.target_left_eye.2) ∧
      (smooth_eye_movement st).current_right_eye =
        (smoothStep st.eye_movement_speed st.current_right_eye.1 st.target_right_eye.1,
         smoothStep st.eye_movement_speed st.current_right_eye.2 st.target_right_eye.2) ∧
      (smooth_eye_movement st).current_eye_position =
        (smooth_eye_movement st).current_left_eye) := by
  have h1 : (0:ℚ) ≤ 1 - s := by linarith
  have h2 : 1 - s < 1 := by linarith
  refine ⟨by unfold smoothStep; ring, ?_, ?_, ?_, by simp [smoothStep],
    fun st => ⟨rfl, rfl, rfl⟩⟩
  · intro hct
    have habs : 0 < |c - t| := abs_pos.mpr (sub_ne_zero.mpr hct)
    rw [smoothStep_sub, abs_mul, abs_of_nonneg h1]
    exact mul_lt_of_lt_one_right habs h2
  · rw [smoothStep_sub]
    nlinarith [sq_nonneg (c - t)]
  · by_cases hct : c = t
    · exact ⟨0, fun n _ => by rw [smoothIter_sub]; simp [hct, hε]⟩
    · have habs : 0 < |c - t| := abs_pos.mpr (sub_ne_zero.mpr hct)
      obtain ⟨N, hN⟩ := exists_pow_lt_of_lt_one (div_pos hε habs) h2
      refine ⟨N, fun n hn => ?_⟩
      rw [smoothIter_sub, abs_mul, abs_pow, abs_of_nonneg h1]
      have hpow : (1 - s) ^ n ≤ (1 - s) ^ N :=
        pow_le_pow_of_le_one h1 (le_of_lt h2) hn
      calc |c - t| * (1 - s) ^ n ≤ |c - t| * (1 - s) ^ N :=
            mul_le_mul_of_nonneg_left hpow (le_of_lt habs)
        _ < |c - t| * (ε / |c - t|) :=
            mul_lt_mul_of_pos_left hN habs
        _ = ε := mul_div_cancel₀ ε (ne_of_gt habs)

/-- Witness for C1 at the configured smoothing factor 0.08 = 2/25, current
position 0 and target 1. -/
theorem C1_smoother_convergence_witness :
    0 < (2/25 : ℚ) ∧ (2/25 : ℚ) ≤ 1 ∧ 0 < (1/100 : ℚ) ∧
    ((0:ℚ) ≠ 1 → |smoothStep (2/25) 0 1 - 1| < |(0:ℚ) - 1|) :=
  ⟨by norm_num, by norm_num, by norm_num,
    (C1_smoother_convergence (2/25) 0 1 (1/100)
      (by norm_num) (by norm_num) (by norm_num)).2.1⟩

theorem setTargetsFromHistory_face_following_mode (s : Tracker) (p : ℚ × ℚ) :
    (setTargetsFromHistory s p).face_following_mode = s.face_following_mode := by
  unfold setTargetsFromHistory
  by_cases h : 2 ≤ (pushHistory s.motion_history s.motion_history_size p).length <;>
    simp [h]

theorem setTargetsFromHistory_idle_mode (s : Tracker) (p : ℚ × ℚ) :
    (setTargetsFromHistory s p).idle_mode = s.idle_mode := by
  unfold setTargetsFromHistory
  by_cases h : 2 ≤ (pushHistory s.motion_history s.motion_history_size p).length <;>
    simp [h]

/-- C2: from motion-tracking mode, a face detection arriving while the last
motion event is less than the 1-second settle window old does not enter
face-following; the same detection arriving after the settle window has
elapsed does enter face-following. -/
theorem C2_settle_window (s : Tracker) (faces : List Box) (t : ℚ)
    (hmode : s.face_following_mode = false) (_hidle : s.idle_mode = false)
    (hfaces : faces ≠ []) :
    (t - s.last_motion_time < 1 →
      (update_face_following faces t s).face_following_mode = false) ∧
    (1 < t - s.last_motion_time →
      (update_face_following faces t s).face_following_mode = true) := by
  cases faces with
  | nil => exact absurd rfl hfaces
  | cons f fs =>
    unfold update_face_following
    constructor
    · intro hlt
      have hn : ¬ (1 < t - s.last_motion_time) := by linarith
      simp [hmode, hn]
    · intro hgt
      simp [hmode, hgt]

/-- Witness for C2: with the last motion at time 0, a face at t = 1/2 (inside
the settle window) does not enter face-following, while a face at t = 2
(after the window) does. -/
theorem C2_settle_window_witness :
    sampleTracker.face_following_mode = false ∧
    ((1:ℚ)/2 - sampleTracker.last_motion_time < 1) ∧
    (update_face_following [sampleBox] (1/2) sampleTracker).face_following_mode = false ∧
    (1 < (2:ℚ) - sampleTracker.last_motion_time) ∧
    (update_face_following [sampleBox] 2 sampleTracker).face_following_mode = true :=
  ⟨rfl, by norm_num [sampleTracker],
    (C2_settle_window sampleTracker [sampleBox] (1/2) rfl rfl (by simp)).1
      (by norm_num [sampleTracker]),
    by norm_num [sampleTracker],
    (C2_settle_window sampleTracker [sampleBox] 2 rfl rfl (by simp)).2
      (by norm_num [sampleTracker])⟩

/-- C3: a motion event (non-empty motion box list) arriving while in
face-following or idle mode leaves `update_eye_position` in motion-tracking
mode (both mode flags cleared), and the idle exit routine resets all three
eye targets to the display center. -/
theorem C3_motion_interrupts (s : Tracker) (mb : List Box) (t nT nR : ℚ)
    (hmb : mb ≠ []) (_hmode : s.face_following_mode = true ∨ s.idle_mode = true)
    (htrig : 0 < s.idle_trigger_delay) :
    ((update_eye_position mb t nT nR s).face_following_mode = false ∧
     (update_eye_position mb t nT nR s).idle_mode = false) ∧
    ((exit_idle_mode s).target_left_eye = displayCenter ∧
     (exit_idle_mode s).target_right_eye = displayCenter ∧
     (exit_idle_mode s).target_eye_position = displayCenter) := by
  cases mb with
  | nil => exact absurd rfl hmb
  | cons m ms =>
    refine ⟨?_, by unfold exit_idle_mode; exact ⟨rfl, rfl, rfl⟩⟩
    have hn : ¬ (s.idle_trigger_delay ≤ 0) := by linarith
    cases hf : s.face_following_mode <;> cases hi : s.idle_mode <;>
      simp [update_eye_position, exit_idle_mode, check_idle_animation_trigger,
            start_idle_mode, hf, hi, hn, setTargetsFromHistory_face_following_mode,
            setTargetsFromHistory_idle_mode]

/-- Witness for C3 in idle mode at t = 1. -/
theorem C3_motion_interrupts_witness :
    sampleIdleTracker.idle_mode = true ∧ 0 < sampleIdleTracker.idle_trigger_delay ∧
    (update_eye_position [sampleBox] 1 7 8 sampleIdleTracker).face_following_mode = false ∧
    (update_eye_position [sampleBox] 1 7 8 sampleIdleTracker).idle_mode = false ∧
    (exit_idle_mode sampleIdleTracker).target_left_eye = displayCenter :=
  ⟨rfl, by norm_num [sampleIdleTracker, sampleTracker],
    (C3_motion_interrupts sampleIdleTracker [sampleBox] 1 7 8 (by simp)
      (Or.inr rfl) (by norm_num [sampleIdleTracker, sampleTracker])).1.1,
    (C3_motion_interrupts sampleIdleTracker [sampleBox] 1 7 8 (by simp)
      (Or.inr rfl) (by norm_num [sampleIdleTracker, sampleTracker])).1.2,
    (C3_motion_interrupts sampleIdleTracker [sampleBox] 1 7 8 (by simp)
      (Or.inr rfl) (by norm_num [sampleIdleTracker, sampleTracker])).2.1⟩

/-- Counterexample for C7: the motion box (10,10,20,20) in a 100×100 frame
maps to display point (180, 60), whose x-coordinate is not left of the
display center (180 > 120): the x-inversion sends the sensor-left box to the
right half of the display. -/
theorem C7_left_above_counterexample :
    (update_eye_position [scenarioBox] 0 10 10 scenarioTracker).target_left_eye
      = (180, 60) ∧
    ¬ ((update_eye_position [scenarioBox] 0 10 10
        scenarioTracker).target_left_eye.1 < (WIDTH : ℚ) / 2) := by
  have h : (update_eye_position [scenarioBox] 0 10 10
      scenarioTracker).target_left_eye = (180, 60) := by
    norm_num [update_eye_position, scenarioTracker, sampleTracker, scenarioBox,
      check_idle_animation_trigger, start_idle_mode, setTargetsFromHistory,
      pushHistory, avgHistory, motionEyePos, boxCenter, largestBox, displayCenter,
      WIDTH, HEIGHT, Int.fdiv]
  refine ⟨h, ?_⟩
  rw [h]
  norm_num [WIDTH]

/-- C7 amended: the adapter maps motion box (10,10,20,20) in a 100×100
sensor frame to display point (180, 60) — above the display center but, due
to the x-inversion, to the RIGHT of it — and that point lies within the
margin-adjusted bounds [20, 220] × [20, 220]. -/
theorem C7_adapter_mapping (s : Tracker) (t nT nR : ℚ)
    (hmode : s.face_following_mode = false) (hidle : s.idle_mode = false)
    (hhist : s.motion_history = []) (hsz : s.motion_history_size = 5)
    (hcw : s.camera_width = 100)
    (hch : s.camera_height = 100) (htrig : 0 < s.idle_trigger_delay) :
    motionEyePos 100 100 scenarioBox = (180, 60) ∧
    (update_eye_position [scenarioBox] t nT nR s).target_left_eye = (180, 60) ∧
    (update_eye_position [scenarioBox] t nT nR s).target_right_eye = (180, 60) ∧
    ((60 : ℚ) < (HEIGHT : ℚ) / 2 ∧ (WIDTH : ℚ) / 2 < (180 : ℚ)) ∧
    (20 ≤ (180:ℚ) ∧ (180:ℚ) ≤ (WIDTH:ℚ) - 20 ∧
     20 ≤ (60:ℚ) ∧ (60:ℚ) ≤ (HEIGHT:ℚ) - 20) := by
  have hn : ¬ (s.idle_trigger_delay ≤ 0) := by linarith
  refine ⟨?_, ?_, ?_, ?_, ?_⟩
  · norm_num [motionEyePos, scenarioBox, boxCenter, WIDTH, HEIGHT, Int.fdiv]
  · norm_num [update_eye_position, scenarioBox, check_idle_animation_trigger,
      start_idle_mode, setTargetsFromHistory, pushHistory, avgHistory,
      motionEyePos, boxCenter, largestBox, displayCenter, WIDTH, HEIGHT,
      Int.fdiv, hmode, hidle, hhist, hsz, hcw, hch, hn]
  · norm_num [update_eye_position, scenarioBox, check_idle_animation_trigger,
      start_idle_mode, setTargetsFromHistory, pushHistory, avgHistory,
      motionEyePos, boxCenter, largestBox, displayCenter, WIDTH, HEIGHT,
      Int.fdiv, hmode, hidle, hhist, hsz, hcw, hch, hn]
  · norm_num [WIDTH, HEIGHT]
  · norm_num [WIDTH, HEIGHT]

/-- Witness for C7 amended at the concrete 100×100 scenario state. -/
theorem C7_adapter_mapping_witness :
    scenarioTracker.face_following_mode = false ∧
    scenarioTracker.camera_width = 100 ∧
    0 < scenarioTracker.idle_trigger_delay ∧
    (update_eye_position [scenarioBox] 0 10 10 scenarioTracker).target_left_eye
      = (180, 60) :=
  ⟨rfl, rfl, by norm_num [scenarioTracker, sampleTracker],
    (C7_adapter_mapping scenarioTracker 0 10 10 rfl rfl rfl rfl rfl rfl
      (by norm_num [scenarioTracker, sampleTracker])).2.1⟩

theorem cacheInsert_length_le {K V : Type} [DecidableEq K] (cap : ℕ)
    (hcap : 0 < cap) (c : List (K × V)) (hc : c.length ≤ cap) (k : K) (v : V) :
    (cacheInsert cap c k v).length ≤ cap := by
  unfold cacheInsert
  by_cases hit : cacheHasKey c k
  · simpa [hit] using hc
  · by_cases hfull : cap ≤ c.length
    · simp only [hit, if_false, hfull, if_true, Bool.false_eq_true,
        List.length_append, List.length_drop, List.length_cons, List.length_nil]
      omega
    · simp only [hit, if_false, hfull, Bool.false_eq_true,
        List.length_append, List.length_cons, List.length_nil]
      omega

theorem cacheRun_length_le {K V : Type} [DecidableEq K] (cap : ℕ)
    (hcap : 0 < cap) (ops : List (K × V)) (init : List (K × V))
    (hinit : init.length ≤ cap) : (cacheRun cap init ops).length ≤ cap := by
  induction ops generalizing init with
  | nil => simpa [cacheRun] using hinit
  | cons op ops ih =>
      simpa [cacheRun] using
        ih (cacheInsert cap init op.1 op.2)
          (cacheInsert_length_le cap hcap init hinit op.1 op.2)

/-- C4: starting from any cache within capacity, after any sequence of
`create_eye_image` insertions the cache size never exceeds the capacity; an
insertion at capacity with a fresh key evicts exactly the head of the
insertion-ordered list (the first-inserted entry not yet evicted); and a key
hit leaves the cache untouched (eviction follows insertion order, not access
order). -/
theorem C4_cache_bound {K V : Type} [DecidableEq K] (cap : ℕ)
    (init : List (K × V)) (hcap : 0 < cap) (hinit : init.length ≤ cap) :
    (∀ ops : List (K × V), (cacheRun cap init ops).length ≤ cap) ∧
    (∀ (c : List (K × V)) (k : K) (v : V), c.length = cap →
      cacheHasKey c k = false → cacheInsert cap c k v = c.drop 1 ++ [(k, v)]) ∧
    (∀ (c : List (K × V)) (k : K) (v : V), cacheHasKey c k = true →
      cacheInsert cap c k v = c) := by
  refine ⟨fun ops => cacheRun_length_le cap hcap ops init hinit, ?_, ?_⟩
  · intro c k v hlen hmiss
    unfold cacheInsert
    simp [hmiss, hlen]
  · intro c k v hhit
    unfold cacheInsert
    simp [hhit]

/-- Witness for C4 with capacity 2: three insertions stay within bound and
the third evicts the first-inserted entry. -/
theorem C4_cache_bound_witness :
    (cacheRun 2 ([] : List (ℕ × ℕ)) [(1, 10), (2, 20), (3, 30)]).length ≤ 2 ∧
    cacheInsert 2 [(1, 10), (2, 20)] 3 30 = [(2, 20), (3, 30)] := by
  have h := C4_cache_bound (K := ℕ) (V := ℕ) 2 [] (by norm_num) (by simp)
  refine ⟨h.1 [(1, 10), (2, 20), (3, 30)], ?_⟩
  have h2 := h.2.1 [(1, 10), (2, 20)] 3 30 (by simp) (by decide)
  simpa using h2

theorem encodeRGB565_length (img : List RGB) :
    (encodeRGB565 img).length = 2 * img.length := by
  induction img with
  | nil => rfl
  | cons p ps ih =>
      simp only [encodeRGB565, toBE16, List.length_append, List.length_cons,
        List.length_nil, ih]
      omega

theorem rgb565_decomp (p : RGB) (hg : p.g < 256) (hb : p.b < 256) :
    rgb565 p = (p.r >>> 3) * 2048 + (p.g >>> 2) * 32 + (p.b >>> 3) := by
  have hb5 : p.b >>> 3 < 2 ^ 5 := by
    rw [Nat.shiftRight_eq_div_pow]; omega
  have hg6 : p.g >>> 2 < 2 ^ 6 := by
    rw [Nat.shiftRight_eq_div_pow]; omega
  have h1 : (p.g >>> 2) <<< 5 ||| (p.b >>> 3) = (p.g >>> 2) * 32 + (p.b >>> 3) := by
    rw [Nat.shiftLeft_eq]
    rw [show (p.g >>> 2) * 2 ^ 5 = 2 ^ 5 * (p.g >>> 2) by ring]
    rw [← Nat.mul_add_lt_is_or hb5]
    ring
  have hmid : (p.g >>> 2) * 32 + (p.b >>> 3) < 2 ^ 11 := by
    have := hb5; have := hg6; omega
  unfold rgb565
  rw [Nat.lor_assoc, h1, Nat.shiftLeft_eq]
  rw [show (p.r >>> 3) * 2 ^ 11 = 2 ^ 11 * (p.r >>> 3) by ring]
  rw [← Nat.mul_add_lt_is_or hmid]
  ring

/-- C5: for a 240 × 240 RGB888 frame, the encoder emits exactly
`WIDTH * HEIGHT * 2` bytes, two big-endian bytes per pixel; each packed word
is below 2^16 and decodes back to the right-shifted channels
(`r >> 3`, `g >> 2`, `b >> 3`), which never exceed 31 / 63 / 31. -/
theorem C5_encoder_bounds (img : List RGB)
    (h8 : ∀ p ∈ img, p.r < 256 ∧ p.g < 256 ∧ p.b < 256)
    (hsize : img.length = WIDTH * HEIGHT) :
    (encodeRGB565 img).length = WIDTH * HEIGHT * 2 ∧
    ∀ p ∈ img,
      rgb565 p = (p.r >>> 3) * 2048 + (p.g >>> 2) * 32 + (p.b >>> 3) ∧
      rgb565 p < 65536 ∧
      toBE16 (rgb565 p) = [rgb565 p / 256, rgb565 p % 256] ∧
      decodeR565 (rgb565 p) = p.r >>> 3 ∧ decodeR565 (rgb565 p) ≤ 31 ∧
      decodeG565 (rgb565 p) = p.g >>> 2 ∧ decodeG565 (rgb565 p) ≤ 63 ∧
      decodeB565 (rgb565 p) = p.b >>> 3 ∧ decodeB565 (rgb565 p) ≤ 31 := by
  constructor
  · rw [encodeRGB565_length, hsize]; ring
  · intro p hp
    obtain ⟨hr, hg, hb⟩ := h8 p hp
    have hdec := rgb565_decomp p hg hb
    have hr5 : p.r >>> 3 < 32 := by
      rw [Nat.shiftRight_eq_div_pow]; omega
    have hg6 : p.g >>> 2 < 64 := by
      rw [Nat.shiftRight_eq_div_pow]; omega
    have hb5 : p.b >>> 3 < 32 := by
      rw [Nat.shiftRight_eq_div_pow]; omega
    have hlt : rgb565 p < 65536 := by rw [hdec]; omega
    refine ⟨hdec, hlt, ?_, ?_, ?_, ?_, ?_, ?_, ?_⟩
    · unfold toBE16
      have : rgb565 p / 256 % 256 = rgb565 p / 256 := Nat.mod_eq_of_lt (by omega)
      rw [this]
    · unfold decodeR565
      rw [Nat.shiftRight_eq_div_pow, hdec]
      norm_num
      omega
    · unfold decodeR565
      rw [Nat.shiftRight_eq_div_pow, hdec]
      norm_num
      omega
    · unfold decodeG565
      have hand : (rgb565 p >>> 5) &&& 63 = (rgb565 p >>> 5) % 64 := by
        have h := Nat.and_pow_two_sub_one_eq_mod (rgb565 p >>> 5) 6
        norm_num at h
        exact h
      rw [hand, Nat.shiftRight_eq_div_pow, hdec]
      norm_num
      omega
    · unfold decodeG565
      have : (rgb565 p >>> 5) &&& 63 ≤ 63 := Nat.and_le_right
      omega
    · unfold decodeB565
      have hand : rgb565 p &&& 31 = rgb565 p % 32 := by
        have h := Nat.and_pow_two_sub_one_eq_mod (rgb565 p) 5
        norm_num at h
        exact h
      rw [hand, hdec]
      omega
    · unfold decodeB565
      have : rgb565 p &&& 31 ≤ 31 := Nat.and_le_right
      omega

/-- Witness for C5 on a constant single-color 240 × 240 frame. -/
theorem C5_encoder_bounds_witness :
    (List.replicate (WIDTH * HEIGHT) (RGB.mk 255 220 0)).length = WIDTH * HEIGHT ∧
    (encodeRGB565 (List.replicate (WIDTH * HEIGHT) (RGB.mk 255 220 0))).length
      = WIDTH * HEIGHT * 2 :=
  ⟨List.length_replicate _ _,
    (C5_encoder_bounds (List.replicate (WIDTH * HEIGHT) (RGB.mk 255 220 0))
      (by intro p hp; rw [List.eq_of_mem_replicate hp]; exact ⟨by norm_num, by norm_num, by norm_num⟩)
      (List.length_replicate _ _)).1⟩

/-- Counterexample for C6: with blink phase 0, eye at (120,120), yellow
color, iris radius 40 and the derived pupil half-axes (6, 32), the
eye_template renderer still paints pixel (140, 120) with the bright iris
gradient color (255, 255, 0): the degenerate eyelid band keeps the single
row `y = render_y`, so the buffer is not only background.  The square root
is exact here (the pixel distance is 400 = 20²). -/
theorem C6_blink_zero_counterexample :
    blinkArgs.blink_state = 0 ∧
    EyeTemplate.pupilDims 40 false 1 = (blinkArgs.pupil_width, blinkArgs.pupil_height) ∧
    EyeTemplate.pixel natSqrtQ blinkArgs 140 120 = (255, 255, 0) ∧
    EyeTemplate.pixel natSqrtQ blinkArgs 140 120 ≠ (0, 0, 0) := by
  have h400 : Nat.sqrt (Int.toNat 400) = 20 := by
    rw [show Int.toNat 400 = 400 from rfl]
    exact (Nat.eq_sqrt.mpr (by norm_num)).symm
  have hpix : EyeTemplate.pixel natSqrtQ blinkArgs 140 120 = (255, 255, 0) := by
    norm_num [EyeTemplate.pixel, EyeTemplate.maskGlow, EyeTemplate.maskHighlight,
      EyeTemplate.maskIris, EyeTemplate.maskPupil, EyeTemplate.visible,
      EyeTemplate.inBand, EyeTemplate.eyelidTop, EyeTemplate.eyelidBottom,
      EyeTemplate.d2, EyeTemplate.renderX, EyeTemplate.renderY, clampCoord,
      blinkArgs, EyeTemplate.glow_size, EyeTemplate.highlight_width,
      EyeTemplate.gradientMult, EyeTemplate.gradient_size,
      EyeTemplate.center_brightness, EyeTemplate.edge_darkness,
      EyeTemplate.gradChan, EyeTemplate.glowChan, truncChan, clip255, pyInt,
      natSqrtQ, h400]
  refine ⟨rfl, ?_, hpix, ?_⟩
  · norm_num [EyeTemplate.pupilDims, pyInt, blinkArgs]
  · rw [hpix]
    intro h
    exact absurd (congrArg Prod.fst h) (by norm_num)

/-- C6 amended: in the blinking branch all drawn content is clipped to the
eyelid band, which narrows symmetrically about the (clamped) eye center as
the blink phase decreases — a pixel row outside the band keeps the
background color for every square-root function.  At blink phase 0 the band
of the eye_template renderer degenerates to the single row `y = render_y`
(still drawn), whereas the display_settings renderer draws nothing at all. -/
theorem C6_blink_clipping (sq : ℕ → ℚ) (a : EyeTemplate.RenderArgs) (px py : ℤ)
    (hb : a.blink_state < 1) :
    EyeTemplate.eyelidTop a =
      (EyeTemplate.renderY a : ℚ) - (a.iris_radius : ℚ) * a.blink_state ∧
    EyeTemplate.eyelidBottom a =
      (EyeTemplate.renderY a : ℚ) + (a.iris_radius : ℚ) * a.blink_state ∧
    (¬ EyeTemplate.inBand a py → EyeTemplate.pixel sq a px py = (0, 0, 0)) ∧
    (a.blink_state = 0 →
      (EyeTemplate.inBand a py ↔ (py : ℚ) = (EyeTemplate.renderY a : ℚ))) ∧
    (∀ (ex ey : ℤ) (col : ℚ × ℚ × ℚ) (qx qy : ℤ),
      DisplaySettings.pixel ex ey 0 col qx qy = (0, 0, 0)) := by
  refine ⟨by unfold EyeTemplate.eyelidTop; ring,
    by unfold EyeTemplate.eyelidBottom; ring, ?_, ?_, ?_⟩
  · intro hnb
    have hv : ¬ EyeTemplate.visible a py := by
      unfold EyeTemplate.visible
      rintro (h | h)
      · linarith
      · exact hnb h
    simp [EyeTemplate.pixel, EyeTemplate.maskGlow, EyeTemplate.maskHighlight,
      EyeTemplate.maskIris, EyeTemplate.maskPupil, hv]
  · intro h0
    unfold EyeTemplate.inBand EyeTemplate.eyelidTop EyeTemplate.eyelidBottom
    rw [h0]
    constructor
    · rintro ⟨h1, h2⟩
      have h1' : (EyeTemplate.renderY a : ℚ) ≤ (py : ℚ) := by linarith
      have h2' : (py : ℚ) ≤ (EyeTemplate.renderY a : ℚ) := by linarith
      linarith
    · intro h
      constructor <;> simp [h]
  · intro ex ey col qx qy
    norm_num [DisplaySettings.pixel, pyInt]

/-- Witness for C6 amended: at blink phase 1/2 the band is [100, 140]; row
50 lies outside it and pixel (0, 50) stays background. -/
theorem C6_blink_clipping_witness :
    halfBlinkArgs.blink_state < 1 ∧
    ¬ EyeTemplate.inBand halfBlinkArgs 50 ∧
    EyeTemplate.pixel natSqrtQ halfBlinkArgs 0 50 = (0, 0, 0) :=
  ⟨by norm_num [halfBlinkArgs],
    by
      norm_num [EyeTemplate.inBand, EyeTemplate.eyelidTop, EyeTemplate.eyelidBottom,
        EyeTemplate.renderY, clampCoord, halfBlinkArgs],
    (C6_blink_clipping natSqrtQ halfBlinkArgs 0 50
      (by norm_num [halfBlinkArgs])).2.2.1
      (by
        norm_num [EyeTemplate.inBand, EyeTemplate.eyelidTop, EyeTemplate.eyelidBottom,
          EyeTemplate.renderY, clampCoord, halfBlinkArgs])⟩

/-- Counterexample for C9: with the default iris radius 50 and a requested
position at the left edge, the clamp yields center x = 50, and the glow disk
(radius 50 + 15) still contains the point (-15, 120), which lies outside the
buffer: the clamp margin accounts for the iris only, not the glow. -/
theorem C9_glow_exceeds_counterexample :
    EyeTemplate.renderX edgeArgs = 50 ∧
    EyeTemplate.d2 edgeArgs (-15) 120 ≤
      (edgeArgs.iris_radius + EyeTemplate.glow_size) ^ 2 ∧
    ¬ (0 ≤ (-15 : ℤ)) := by
  refine ⟨?_, ?_, by norm_num⟩
  · norm_num [EyeTemplate.renderX, clampCoord, edgeArgs]
  · norm_num [EyeTemplate.d2, EyeTemplate.renderX, EyeTemplate.renderY,
      clampCoord, edgeArgs, EyeTemplate.glow_size]

theorem coordWithin (x c rad : ℤ) (hrad : 0 ≤ rad)
    (h : (x - c) ^ 2 ≤ rad ^ 2) : c - rad ≤ x ∧ x ≤ c + rad := by
  constructor <;> nlinarith [sq_nonneg (x - c + rad), sq_nonneg (x - c - rad)]

/-- C9 amended: the clamp keeps the eye center at distance at least
`iris_radius` from every edge, so the iris disk — and hence every
iris-mask pixel — lies within [0, 240]²; the glow disk is only guaranteed
to stay within `glow_size` of the buffer (it may exceed the edges by up to
15), and drawn pixels outside the buffer cannot exist because all masks are
evaluated on the 240 × 240 pixel grid. -/
theorem C9_clamp_bounds (a : EyeTemplate.RenderArgs)
    (hr0 : 0 ≤ a.iris_radius) (hr : 2 * a.iris_radius ≤ 240) :
    (a.iris_radius ≤ EyeTemplate.renderX a ∧
     EyeTemplate.renderX a ≤ 240 - a.iris_radius ∧
     a.iris_radius ≤ EyeTemplate.renderY a ∧
     EyeTemplate.renderY a ≤ 240 - a.iris_radius) ∧
    (∀ px py : ℤ, EyeTemplate.maskIris a px py →
      0 ≤ px ∧ px ≤ 240 ∧ 0 ≤ py ∧ py ≤ 240) ∧
    (∀ px py : ℤ, EyeTemplate.maskGlow a px py →
      -EyeTemplate.glow_size ≤ px ∧ px ≤ 240 + EyeTemplate.glow_size ∧
      -EyeTemplate.glow_size ≤ py ∧ py ≤ 240 + EyeTemplate.glow_size) := by
  have hxlo : a.iris_radius ≤ EyeTemplate.renderX a := le_max_left _ _
  have hylo : a.iris_radius ≤ EyeTemplate.renderY a := le_max_left _ _
  have hxhi : EyeTemplate.renderX a ≤ 240 - a.iris_radius :=
    max_le (by omega) (min_le_left _ _)
  have hyhi : EyeTemplate.renderY a ≤ 240 - a.iris_radius :=
    max_le (by omega) (min_le_left _ _)
  refine ⟨⟨hxlo, hxhi, hylo, hyhi⟩, ?_, ?_⟩
  · intro px py hm
    obtain ⟨hd, -⟩ := hm
    unfold EyeTemplate.d2 at hd
    have hx2 : (px - EyeTemplate.renderX a) ^ 2 ≤ a.iris_radius ^ 2 := by
      nlinarith [sq_nonneg (py - EyeTemplate.renderY a)]
    have hy2 : (py - EyeTemplate.renderY a) ^ 2 ≤ a.iris_radius ^ 2 := by
      nlinarith [sq_nonneg (px - EyeTemplate.renderX a)]
    obtain ⟨hx1, hx2'⟩ := coordWithin px (EyeTemplate.renderX a) a.iris_radius hr0 hx2
    obtain ⟨hy1, hy2'⟩ := coordWithin py (EyeTemplate.renderY a) a.iris_radius hr0 hy2
    omega
  · intro px py hm
    obtain ⟨hd, -⟩ := hm
    unfold EyeTemplate.d2 at hd
    have hg0 : 0 ≤ a.iris_radius + EyeTemplate.glow_size := by
      unfold EyeTemplate.glow_size; omega
    have hx2 : (px - EyeTemplate.renderX a) ^ 2 ≤
        (a.iris_radius + EyeTemplate.glow_size) ^ 2 := by
      nlinarith [sq_nonneg (py - EyeTemplate.renderY a)]
    have hy2 : (py - EyeTemplate.renderY a) ^ 2 ≤
        (a.iris_radius + EyeTemplate.glow_size) ^ 2 := by
      nlinarith [sq_nonneg (px - EyeTemplate.renderX a)]
    obtain ⟨hx1, hx2'⟩ :=
      coordWithin px (EyeTemplate.renderX a) _ hg0 hx2
    obtain ⟨hy1, hy2'⟩ :=
      coordWithin py (EyeTemplate.renderY a) _ hg0 hy2
    unfold EyeTemplate.glow_size at hx1 hx2' hy1 hy2' ⊢
    omega

/-- Witness for C9 amended at the left-edge arguments. -/
theorem C9_clamp_bounds_witness :
    0 ≤ edgeArgs.iris_radius ∧ 2 * edgeArgs.iris_radius ≤ 240 ∧
    (edgeArgs.iris_radius ≤ EyeTemplate.renderX edgeArgs ∧
     EyeTemplate.renderX edgeArgs ≤ 240 - edgeArgs.iris_radius ∧
     edgeArgs.iris_radius ≤ EyeTemplate.renderY edgeArgs ∧
     EyeTemplate.renderY edgeArgs ≤ 240 - edgeArgs.iris_radius) :=
  ⟨by norm_num [edgeArgs], by norm_num [edgeArgs],
    (C9_clamp_bounds edgeArgs (by norm_num [edgeArgs])
      (by norm_num [edgeArgs])).1⟩

/-- C8 (defect): `IdleAnimations` defines none of the methods
`update_idle_animation` calls, so on every idle tick before the resume
timeout the call raises `AttributeError` on `start_random_animation` — no
idle script is ever selected, uniformly at random or otherwise. -/
theorem C8_idle_methods_missing (t t0 : ℚ) (s : Tracker)
    (hidle : s.idle_mode = true) (hanim : s.has_idle_animations = true)
    (hstart : s.idle_start_time = some t0)
    (hns : s.idle_animation_started = false)
    (hrun : t - t0 < s.idle_resume_delay) :
    idleAnimationsHasAttr "start_random_animation" = false ∧
    idleAnimationsHasAttr "update" = false ∧
    idleAnimationsHasAttr "get_current_positions" = false ∧
    update_idle_animation t s =
      .error (.attributeError "start_random_animation") := by
  refine ⟨by decide, by decide, by decide, ?_⟩
  unfold update_idle_animation
  have hnot : ¬ (s.idle_mode = false ∨ s.has_idle_animations = false) := by
    rw [hidle, hanim]; simp
  have hto : ¬ (s.idle_resume_delay ≤ t - t0) := by linarith
  simp [hstart, hnot, hto, hns, idleAnimationsHasAttr, idleAnimationsMethods]

/-- Witness for C8 at the sample idle state, one second into idle mode. -/
theorem C8_idle_methods_missing_witness :
    sampleIdleTracker.idle_mode = true ∧
    sampleIdleTracker.idle_start_time = some 0 ∧
    sampleIdleTracker.idle_animation_started = false ∧
    (1 : ℚ) - 0 < sampleIdleTracker.idle_resume_delay ∧
    update_idle_animation 1 sampleIdleTracker =
      .error (.attributeError "start_random_animation") :=
  ⟨rfl, rfl, rfl, by norm_num [sampleIdleTracker, sampleTracker],
    (C8_idle_methods_missing 1 0 sampleIdleTracker rfl rfl rfl rfl
      (by norm_num [sampleIdleTracker, sampleTracker])).2.2.2⟩

/-- C10: `EyeTracker.create_eye_image` forwards seven positional arguments
to `display_settings.create_eye_image`, which accepts at most six, so every
call raises `TypeError`; under the render loop's per-iteration exception
handler this yields no frame while the loop keeps running. -/
theorem C10_create_eye_image_arity (eye_x eye_y : ℤ) (blink : ℚ) :
    forwardedArgs.length = 7 ∧
    displaySettingsCreateEyeImageParams = 6 ∧
    eyeTrackerCreateEyeImage eye_x eye_y blink = .error .typeError ∧
    displayThreadIteration (eyeTrackerCreateEyeImage eye_x eye_y blink) =
      (none, true) := by
  refine ⟨rfl, rfl, ?_, ?_⟩ <;>
    simp [eyeTrackerCreateEyeImage, pyCallPositional, forwardedArgs,
      displaySettingsCreateEyeImageParams, displaySettingsCreateEyeImageDefaults,
      displayThreadIteration]
